import Mathlib

/-!
Shallow embedding of the HTTP handler of `src/httpd/handler.go` (the HTTP
façade of the InfluxDB node) together with proofs about the request
pipeline: the authentication gate, the write-path validation cascade, the
long-poll wait primitive, the response encoder's status classification,
the middleware chain and the data-node creation endpoint.

Conventions of the embedding:
- Responses are modelled by `Httpd.RespState`, mirroring Go's
  `net/http.ResponseWriter`: the first `WriteHeader` fixes the status, a
  `Write` without a prior `WriteHeader` implicitly writes status 200, and a
  handler that returns without writing anything is sent with the default
  status 200 and an empty body.
- Body bytes are recorded as a list of typed write events
  (`Httpd.BodyWrite`) rather than serialized JSON text, since JSON
  marshalling lives in external packages.
- Backend calls (`DatabaseExists`, `Authenticate`, `WriteSeries`,
  `Index`, `CreateDataNode`, ...) are oracles passed as function
  parameters: the backend is an external collaborator of this package.
- Machine integers of the source are modelled as `Nat` (no arithmetic in
  the handler ever overflows or goes negative on the paths modelled).
-/

namespace Httpd

/-- A resolved caller identity (`*influxdb.User`): a name and the
per-database write-privilege check used by the write path
(`user.Authorize(influxql.WritePrivilege, db)`). -/
structure User where
  name : String
  authorizeWrite : String → Bool

/-- The fields of an incoming `*http.Request` that the handler reads:
method, `Origin` header, `Accept-Encoding` header, the `u`/`p` query
parameters, and the decoded basic-auth header (`r.BasicAuth()`, `none`
when the header is absent or malformed). -/
structure Req where
  method : String
  origin : String
  acceptEncoding : String
  paramU : String
  paramP : String
  basicAuth : Option (String × String)

/-- An influxdb error value as classified by the handler:
`influxdb.ErrAuthorize` is a distinguished type (checked by a type
assertion in `isAuthorizationError`); every other error is just its
message string. -/
inductive ErrVal where
  | authorizeErr (msg : String)
  | plain (msg : String)
deriving DecidableEq

/-- `err.Error()`: the message of an error value. -/
def ErrVal.message : ErrVal → String
  | .authorizeErr m => m
  | .plain m => m

/-- One `influxdb.Result`: a per-statement error and an opaque success
payload (the "series" rows, irrelevant to the handler's control flow). -/
structure QueryResult where
  err : Option ErrVal
  rows : List String
deriving DecidableEq

/-- An `influxdb.Results` envelope: an envelope-level error (set by
`httpError`) and one `Result` per submitted statement. -/
structure Results where
  err : Option ErrVal
  results : List QueryResult
deriving DecidableEq

/-- Modelled from the spec: `influxdb.Results.Error()` of the external
influxdb package (not under `src/`). Per the spec's data model, "the
envelope's overall error is the first non-nil per-statement error"; the
envelope-level `Err` field, which `httpError` populates directly, takes
precedence when present. -/
def Results.error (rs : Results) : Option ErrVal :=
  rs.err <|> (rs.results.filterMap QueryResult.err).head?

/-- A body write event: raw bytes (`w.Write`), an encoded single
`influxdb.Result` (`serveWrite`'s error path), an encoded `Results`
envelope (`httpError` / `httpResults`), or an encoded `dataNodeJSON`. -/
inductive BodyWrite where
  | raw (s : String)
  | resultJSON (r : QueryResult)
  | resultsJSON (rs : Results) (pretty : Bool)
  | dataNodeJSON (id : Nat) (url : String)
deriving DecidableEq

/-- The observable state of a `net/http` response writer: whether
`WriteHeader` has been called, the status (default 200), the header map
(as an ordered multimap) and the body writes so far. -/
structure RespState where
  wroteHeader : Bool
  status : Nat
  headers : List (String × String)
  body : List BodyWrite
deriving DecidableEq

/-- The state of a fresh response writer: nothing written, default
status 200, no headers, empty body. -/
def initState : RespState :=
  { wroteHeader := false, status := 200, headers := [], body := [] }

/-- `w.Header().Set(k, v)`: replace all values of key `k` by `v`. -/
def setHeader (s : RespState) (k v : String) : RespState :=
  { s with headers := (k, v) :: s.headers.filter (fun kv => kv.1 ≠ k) }

/-- `w.Header().Add(k, v)`: append a value for key `k`.
(Go discards header mutations made after `WriteHeader`; no property
proved below depends on a header mutated after the status was written.) -/
def addHeader (s : RespState) (k v : String) : RespState :=
  { s with headers := s.headers ++ [(k, v)] }

/-- `w.WriteHeader(code)`: the first call fixes the status; later calls
are no-ops. -/
def writeHeader (s : RespState) (code : Nat) : RespState :=
  if s.wroteHeader then s else { s with wroteHeader := true, status := code }

/-- `w.Write(b)`: an implicit `WriteHeader(200)` if none happened yet,
then append the bytes. -/
def writeBody (s : RespState) (b : BodyWrite) : RespState :=
  let s := writeHeader s 200
  { s with body := s.body ++ [b] }

/-- The body is untouched by `WriteHeader`. -/
@[simp]
theorem writeHeader_body (s : RespState) (c : Nat) : (writeHeader s c).body = s.body := by
  unfold writeHeader
  split <;> rfl

/-- The body is untouched by `Header().Add`. -/
@[simp]
theorem addHeader_body (s : RespState) (k v : String) : (addHeader s k v).body = s.body := rfl

/-- The body is untouched by `Header().Set`. -/
@[simp]
theorem setHeader_body (s : RespState) (k v : String) : (setHeader s k v).body = s.body := rfl

/-- `Write` appends to the body. -/
@[simp]
theorem writeBody_body (s : RespState) (b : BodyWrite) :
    (writeBody s b).body = s.body ++ [b] := by
  unfold writeBody
  simp

/-- The headers are untouched by `WriteHeader`. -/
@[simp]
theorem writeHeader_headers (s : RespState) (c : Nat) :
    (writeHeader s c).headers = s.headers := by
  unfold writeHeader
  split <;> rfl

/-- The headers are untouched by `Write`. -/
@[simp]
theorem writeBody_headers (s : RespState) (b : BodyWrite) :
    (writeBody s b).headers = s.headers := by
  unfold writeBody
  simp

/-- The status after `Write` on a writer that already wrote its header. -/
@[simp]
theorem writeBody_status_of_wrote (s : RespState) (b : BodyWrite) (h : s.wroteHeader = true) :
    (writeBody s b).status = s.status := by
  unfold writeBody writeHeader
  simp [h]

/-- `httpError` (handler.go:474-486): add the JSON content type, write
the status code, then write the marshalled `Results{Err: msg}` envelope. -/
def httpError (s : RespState) (msg : String) (pretty : Bool) (code : Nat) : RespState :=
  writeBody (writeHeader (addHeader s "content-type" "application/json") code)
    (.resultsJSON { err := some (.plain msg), results := [] } pretty)

/-- `parseCredentials` (handler.go:495-506): the `u`/`p` query parameters
when both are non-empty, otherwise the basic-auth header, otherwise an
error. -/
def parseCredentials (r : Req) : Except String (String × String) :=
  if r.paramU ≠ "" ∧ r.paramP ≠ "" then Except.ok (r.paramU, r.paramP)
  else
    match r.basicAuth with
    | some (u, p) => Except.ok (u, p)
    | none => Except.error "unable to parse Basic Auth credentials"

/-- The decision of the auth gate: either a terminal error response
(`httpError msg 401` in the source), or proceed into the wrapped endpoint
with the given (possibly absent) identity. -/
inductive AuthResult where
  | denied (code : Nat) (msg : String)
  | proceed (user : Option User)

/-- `authenticate` (handler.go:513-542), as the decision it takes before
either writing an error or invoking the wrapped endpoint. The backend is
the pair (`UserCount`, `Authenticate`). The local `user` variable starts
nil and is only assigned inside the `requireAuthentication && UserCount() > 0`
block; every failure inside that block returns early with a 401. -/
def authenticate (requireAuthentication : Bool) (userCount : Nat)
    (serverAuthenticate : String → String → Except String User) (r : Req) : AuthResult :=
  if !requireAuthentication then .proceed none
  else if userCount > 0 then
    match parseCredentials r with
    | .error e => .denied 401 e
    | .ok (username, password) =>
      if username = "" then .denied 401 "username required"
      else
        match serverAuthenticate username password with
        | .error e => .denied 401 e
        | .ok u => .proceed (some u)
  else .proceed none

/-- One character of Go's `%q` (strconv.Quote) escaping, restricted to the
escapes the handler's database and user names can trigger here: backslash
and double quote (control characters and non-ASCII escapes are outside the
strings these claims quantify over). -/
def goQuoteChar (c : Char) : String :=
  if c = '\\' then "\\\\"
  else if c = '"' then "\\\""
  else String.singleton c

/-- Go's `fmt` `%q` verb on a string: the escaped text in double quotes. -/
def goQuote (s : String) : String :=
  "\"" ++ String.join (s.toList.map goQuoteChar) ++ "\""

/-- A decoded `client.BatchPoints` after the fields `serveWrite` reads:
target database, target retention policy, and the raw points (opaque to
the handler, which passes the whole batch to `NormalizeBatchPoints`). -/
structure BatchPoints where
  database : String
  retentionPolicy : String
  points : List String

/-- `serveWrite`'s local `writeError` closure (handler.go:195-200):
`WriteHeader(statusCode)`, then add the JSON content type (after the
status — a quirk kept from the source), then encode the single `Result`. -/
def writeError (s : RespState) (res : QueryResult) (code : Nat) : RespState :=
  writeBody (addHeader (writeHeader s code) "content-type" "application/json")
    (.resultJSON res)

/-- `user.Authorize(influxql.WritePrivilege, db)` on the write path; the
`none` case is unreachable there because a nil user was already rejected
by the preceding check. -/
def userAuthorizeWrite : Option User → String → Bool
  | some u, db => u.authorizeWrite db
  | none, _ => true

/-- `user.Name` on the write path; the `none` case is unreachable there. -/
def userNameOf : Option User → String
  | some u => u.name
  | none => ""

/-- What `serveWrite` produced: the response state, the call to
`WriteSeries` (database, retention policy, normalized points) if one was
made, and the index the backend returned on success. -/
structure WriteOutcome where
  resp : RespState
  forwarded : Option (String × String × List String)

/-- `serveWrite` (handler.go:178-243) after a successful decode of the
body into `bp`. Backend oracles: `DatabaseExists`, the external package
function `NormalizeBatchPoints`, and `WriteSeries` (which returns the
assigned index). On success the index is added as the `X-InfluxDB-Index`
header and nothing else is written (so the implicit status is 200). -/
def serveWrite (requireAuthentication : Bool) (user : Option User)
    (databaseExists : String → Bool)
    (normalizeBatchPoints : BatchPoints → Except String (List String))
    (writeSeries : String → String → List String → Except String Nat)
    (bp : BatchPoints) (s : RespState) : WriteOutcome :=
  if bp.database = "" then
    ⟨writeError s { err := some (.plain "database is required"), rows := [] } 500, none⟩
  else if !databaseExists bp.database then
    ⟨writeError s
      { err := some (.plain ("database not found: " ++ goQuote bp.database)), rows := [] }
      404, none⟩
  else if requireAuthentication && user.isNone then
    ⟨writeError s
      { err := some (.plain ("user is required to write to database " ++ goQuote bp.database)),
        rows := [] } 401, none⟩
  else if requireAuthentication && !userAuthorizeWrite user bp.database then
    ⟨writeError s
      { err := some (.plain (goQuote (userNameOf user) ++
          " user is not authorized to write to database " ++ goQuote bp.database)),
        rows := [] } 401, none⟩
  else
    match normalizeBatchPoints bp with
    | .error e =>
      ⟨writeError s { err := some (.plain e), rows := [] } 500, none⟩
    | .ok points =>
      match writeSeries bp.database bp.retentionPolicy points with
      | .error e =>
        ⟨writeError s { err := some (.plain e), rows := [] } 500,
          some (bp.database, bp.retentionPolicy, points)⟩
      | .ok index =>
        ⟨addHeader s "X-InfluxDB-Index" (toString index),
          some (bp.database, bp.retentionPolicy, points)⟩

/-- `isAuthorizationError` (handler.go:436-439): a type assertion on
`influxdb.ErrAuthorize`. -/
def isAuthorizationError : ErrVal → Bool
  | .authorizeErr _ => true
  | .plain _ => false

/-- `isMeasurementNotFoundError` (handler.go:441-443). -/
def isMeasurementNotFoundError (e : ErrVal) : Bool :=
  e.message = "measurement not found"

/-- Go's `strings.HasPrefix(s, pre)`, as a character-list prefix test. -/
def hasPre (pre s : String) : Bool :=
  pre.toList.isPrefixOf s.toList

/-- `isFieldNotFoundError` (handler.go:445-447): `strings.HasPrefix` on
the message. -/
def isFieldNotFoundError (e : ErrVal) : Bool :=
  hasPre "field not found" e.message

/-- `httpResults` (handler.go:450-471): when the envelope's aggregate
error is non-nil, classify it to pick the status; then (in every case)
add the JSON content type and write the marshalled envelope. When no
explicit status was written, the first body write implies status 200. -/
def httpResults (s : RespState) (rs : Results) (pretty : Bool) : RespState :=
  let s :=
    match rs.error with
    | some e =>
      if isAuthorizationError e then writeHeader s 401
      else if isMeasurementNotFoundError e then writeHeader s 200
      else if isFieldNotFoundError e then writeHeader s 200
      else writeHeader s 500
    | none => s
  writeBody (addHeader s "content-type" "application/json") (.resultsJSON rs pretty)

/-- `serveOptions` (handler.go:279-281): write status 204 and nothing
else. Registered for `OPTIONS /write`. -/
def serveOptions (s : RespState) : RespState :=
  writeHeader s 204

/-- `time.Sleep(10 * time.Millisecond)`: the poll interval of
`pollForIndex`, in nanoseconds. -/
def pollTickNs : Nat := 10000000

/-- `math.MaxInt64`: the default wait deadline (as a `time.Duration` in
nanoseconds) when no timeout is given. -/
def maxInt64 : Nat := 9223372036854775807

/-- The deadline in nanoseconds `serveWait` passes to `pollForIndex`:
`math.MaxInt64` when the timeout parameter is 0 or absent, otherwise the
timeout converted from milliseconds. -/
def waitDeadlineNs (timeout : Nat) : Nat :=
  if timeout = 0 then maxInt64 else timeout * 1000000

/-- The number of poll checks that happen strictly before a deadline of
`dNs` nanoseconds: checks happen at times `k * pollTickNs` for
`k = 0, 1, 2, ...`. -/
def numTicks (dNs : Nat) : Nat := (dNs + pollTickNs - 1) / pollTickNs

/-- The polling loop of `pollForIndex` (handler.go:323-343) in discrete
time: `indexAt k` is the backend's index at the k-th check; scan the
checks in order and return the first check at which the index has reached
the target, or `none` when the fuel (the number of checks before the
deadline) runs out. -/
def findSat (indexAt : Nat → Nat) (target : Nat) : Nat → Nat → Option Nat
  | 0, _ => none
  | fuel + 1, k => if target ≤ indexAt k then some k else findSat indexAt target fuel (k + 1)

/-- `pollForIndex` (handler.go:323-343): a goroutine checks
`h.server.Index() >= index` every 10ms (first check immediately) and
signals completion; the request waits for that signal or for
`time.After(timeout)`, whichever fires first. In discrete time: success
with the satisfying check `k` iff some check at time `k * pollTickNs`
strictly before the deadline sees the index at or above the target. -/
def pollForIndex (indexAt : Nat → Nat) (target : Nat) (dNs : Nat) : Option Nat :=
  findSat indexAt target (numTicks dNs) 0

/-- `serveWait` (handler.go:298-319) with the target index and timeout
already parsed (`:index` as an unsigned integer — 0 also stands for an
unparsable value — and `timeout` in milliseconds, 0 when absent). On
success the body is the backend's current index, read at the moment the
poll was satisfied. -/
def serveWait (indexAt : Nat → Nat) (index : Nat) (timeout : Nat) (s : RespState) : RespState :=
  if index = 0 then writeHeader s 400
  else
    match pollForIndex indexAt index (waitDeadlineNs timeout) with
    | none => writeHeader s 408
    | some k => writeBody s (.raw (toString (indexAt k)))

/-- A data node (`influxdb.DataNode`) as the handler sees it: id and URL. -/
structure DataNode where
  id : Nat
  url : String

/-- The error of `Server.CreateDataNode`: the sentinel
`influxdb.ErrDataNodeExists` (compared by identity in the handler) or any
other error, each carrying its message. -/
inductive CreateNodeErr where
  | nodeExists (msg : String)
  | other (msg : String)

/-- The backend calls `serveCreateDataNode` makes: `CreateDataNode`,
`DataNodeByURL`, and `Client().CreateReplica`. -/
structure NodeBackend where
  createDataNode : String → Option CreateNodeErr
  dataNodeByURL : String → DataNode
  createReplica : Nat → String → Option String

/-- A mutating backend call recorded by the embedding of
`serveCreateDataNode`; `deleteNode` is never emitted by the handler and
exists to express that no compensating deletion happens after a replica
failure. -/
inductive NodeCall where
  | createNode (url : String)
  | createReplica (id : Nat) (url : String)
  | deleteNode (id : Nat)
deriving DecidableEq

/-- What `serveCreateDataNode` produced: the response and the mutating
backend calls it made, in order. -/
structure CreateNodeOutcome where
  resp : RespState
  calls : List NodeCall

/-- `serveCreateDataNode` (handler.go:361-398) for a request whose body
decoded and whose URL parsed (the two earlier 400 paths), with `u` the
parsed URL: create the node (409 on the exists-sentinel, 500 on any other
error), then look the node up and provision a broker replica (502 on
failure), then respond 201 with the node JSON. -/
def serveCreateDataNode (be : NodeBackend) (u : String) (s : RespState) : CreateNodeOutcome :=
  match be.createDataNode u with
  | some (.nodeExists m) => ⟨httpError s m false 409, [.createNode u]⟩
  | some (.other m) => ⟨httpError s m false 500, [.createNode u]⟩
  | none =>
    let node := be.dataNodeByURL u
    match be.createReplica node.id node.url with
    | some m =>
      ⟨httpError s m false 502, [.createNode u, .createReplica node.id node.url]⟩
    | none =>
      ⟨writeBody (addHeader (writeHeader s 201) "content-type" "application/json")
          (.dataNodeJSON node.id node.url),
        [.createNode u, .createReplica node.id node.url]⟩

/-- The middleware layers of `NewHandler` (handler.go:117-141), named
after the wrapping functions of the source. -/
inductive Mw where
  | recovery
  | logging
  | requestID
  | cors
  | versionHeader
  | gzip
  | authGate
deriving DecidableEq

/-- The wrapped-handler construction of `NewHandler` (handler.go:117-141)
for one route, transcribed statement by statement: each `handler = X(handler)`
assignment pushes `X` as the new outermost layer. The result lists the
layers from outermost to innermost, around the endpoint body. -/
def wrapRoute (gzipped log requiresAuth : Bool) : List Mw :=
  let hs : List Mw := if requiresAuth then [Mw.authGate] else []
  let hs := if gzipped then Mw.gzip :: hs else hs
  let hs := Mw.versionHeader :: hs
  let hs := Mw.cors :: hs
  let hs := Mw.requestID :: hs
  let hs := if log then Mw.logging :: hs else hs
  Mw.recovery :: hs

/-- The outcome of running a handler on a response writer: a normal
return, or a panic (carrying the writer state reached so far and the
panic value) unwinding out of it. -/
inductive Outcome where
  | done (s : RespState)
  | panicked (s : RespState) (v : String)
deriving DecidableEq

/-- The response-writer state an outcome left behind. -/
def outState : Outcome → RespState
  | .done s => s
  | .panicked s _ => s

/-- The per-request environment the middleware closures captured: the
version string stamped by `versionHeader`, the request id generated by
`requestID`, and the auth gate's configuration and backend. -/
structure ChainEnv where
  version : String
  uid : String
  requireAuthentication : Bool
  userCount : Nat
  serverAuthenticate : String → String → Except String User

/-- The fixed `Access-Control-Allow-Methods` list of `cors`. -/
def corsAllowMethods : String := "DELETE, GET, OPTIONS, POST, PUT"

/-- The fixed `Access-Control-Allow-Headers` list of `cors`. -/
def corsAllowHeaders : String :=
  "Accept, Accept-Encoding, Authorization, Content-Length, Content-Type, X-CSRF-Token, X-HTTP-Method-Override"

/-- The CORS reflection headers (handler.go:581-600), applied when the
request carries a non-empty `Origin`. -/
def corsHeaders (r : Req) (s : RespState) : RespState :=
  if r.origin ≠ "" then
    setHeader
      (setHeader (setHeader s "Access-Control-Allow-Origin" r.origin)
        "Access-Control-Allow-Methods" corsAllowMethods)
      "Access-Control-Allow-Headers" corsAllowHeaders
  else s

/-- Substring occurrence on character lists: the pattern is a prefix of
some suffix of the haystack. -/
def listHasSub (pat : List Char) : List Char → Bool
  | [] => pat.isEmpty
  | c :: t => pat.isPrefixOf (c :: t) || listHasSub pat t

/-- Go's `strings.Contains(haystack, "gzip")` as used by `gzipFilter`. -/
def containsGzip (hay : String) : Bool :=
  listHasSub "gzip".toList hay.toList

/-- One middleware layer (handler.go:513-641) as a transformer of
handlers `Req → RespState → Outcome`.
- `recovery` (630-641): the source calls `recover()` in the handler body,
  not from a deferred function, so it can never observe a panic: a panic
  raised by `inner` unwinds straight through (the `recover()` line is
  never reached), and on a normal return `recover()` yields nil so nothing
  is logged. Both cases reduce to passing the outcome through unchanged.
- `logging` (620-628): the access-log side effect is not modelled.
- `requestID` (610-618): sets the `Request-Id` header to a fresh uuid.
- `cors` (579-608): reflect the origin headers, then terminate OPTIONS
  requests without writing anything (so they get the default status).
- `versionHeader` (570-575): adds `X-InfluxDB-Version`.
- `gzip` (554-566): on an `Accept-Encoding` containing "gzip", set
  `Content-Encoding: gzip` (byte-level compression is not modelled).
- `authGate` (513-542): run the `authenticate` decision; a denial writes
  `httpError(msg, 401)` and the endpoint never runs; otherwise the
  endpoint runs (the resolved identity it receives is not threaded
  through this chain-level model; `authenticate` itself carries it). -/
def runMw (env : ChainEnv) (m : Mw) (inner : Req → RespState → Outcome)
    (r : Req) (s : RespState) : Outcome :=
  match m with
  | .recovery =>
    match inner r s with
    | .done s' => .done s'
    | .panicked s' v => .panicked s' v
  | .logging => inner r s
  | .requestID => inner r (setHeader s "Request-Id" env.uid)
  | .cors =>
    let s := corsHeaders r s
    if r.method = "OPTIONS" then .done s else inner r s
  | .versionHeader => inner r (addHeader s "X-InfluxDB-Version" env.version)
  | .gzip =>
    if containsGzip r.acceptEncoding then inner r (setHeader s "Content-Encoding" "gzip")
    else inner r s
  | .authGate =>
    match authenticate env.requireAuthentication env.userCount env.serverAuthenticate r with
    | .denied code msg => .done (httpError s msg false code)
    | .proceed _ => inner r s

/-- Run a stack of middleware layers (outermost first) around an
endpoint body. -/
def runChain (env : ChainEnv) : List Mw → (Req → RespState → Outcome) → Req → RespState → Outcome
  | [], inner => inner
  | m :: ms, inner => runMw env m (runChain env ms inner)

/-- One primitive act an endpoint body can perform on the response
writer (the four operations the source's endpoints use; none of them
deletes a header). -/
inductive HAction where
  | setH (k v : String)
  | addH (k v : String)
  | writeH (code : Nat)
  | writeB (b : BodyWrite)

/-- Apply one endpoint act to the writer state. -/
def applyAction (s : RespState) : HAction → RespState
  | .setH k v => setHeader s k v
  | .addH k v => addHeader s k v
  | .writeH code => writeHeader s code
  | .writeB b => writeBody s b

/-- Apply a sequence of endpoint acts. -/
def applyActions (s : RespState) (acts : List HAction) : RespState :=
  acts.foldl applyAction s

/-- An endpoint body abstracted by what it does to the writer: a
sequence of acts, then optionally a panic. -/
structure EndpointBeh where
  actions : List HAction
  panicVal : Option String

/-- Run an abstracted endpoint body. -/
def runEndpoint (b : EndpointBeh) : Req → RespState → Outcome :=
  fun _ s =>
    let s := applyActions s b.actions
    match b.panicVal with
    | some v => .panicked s v
    | none => .done s

/-- C2: with authentication not required globally, and likewise with
authentication required but a backend user count of zero (the bootstrap
exception), the auth gate decides to proceed with an absent identity, and
at the chain level it invokes the wrapped endpoint body unchanged. -/
theorem authenticate_bootstrap (userCount : Nat)
    (sa : String → String → Except String User) (r : Req) :
    authenticate false userCount sa r = AuthResult.proceed none
    ∧ authenticate true 0 sa r = AuthResult.proceed none
    ∧ (∀ (v uid : String) (inner : Req → RespState → Outcome) (s : RespState),
        runMw ⟨v, uid, false, userCount, sa⟩ Mw.authGate inner r s = inner r s
        ∧ runMw ⟨v, uid, true, 0, sa⟩ Mw.authGate inner r s = inner r s) := by
  refine ⟨by simp [authenticate], by simp [authenticate], ?_⟩
  intro v uid inner s
  constructor <;> simp [runMw, authenticate]

/-- C6: the composed handler of `NewHandler` applies, outermost first:
recovery, then logging when the route's log flag is set, then request-id
tagging, then CORS, then version-header stamping, then gzip negotiation
when the route's gzip flag is set, then the auth gate when the handler
variant requires an identity, and innermost the endpoint body. -/
theorem wrapRoute_order (gzipped log requiresAuth : Bool) :
    wrapRoute gzipped log requiresAuth =
      [Mw.recovery] ++ (if log then [Mw.logging] else [])
        ++ [Mw.requestID, Mw.cors, Mw.versionHeader]
        ++ (if gzipped then [Mw.gzip] else [])
        ++ (if requiresAuth then [Mw.authGate] else []) := by
  cases gzipped <;> cases log <;> cases requiresAuth <;> rfl

/-- C1: after a successful decode, `serveWrite` validates in order and
stops at the first failure — empty database name (500,
"database is required"), unknown database (404, "database not found:
<name>"), authentication required with no identity (401, "user is
required to write to database <name>"), authentication required without
write privilege (401, "<user> user is not authorized to write to database
<name>") — and only when every check passes are the points normalized and
forwarded to the backend `WriteSeries` call. -/
theorem serveWrite_validation (ra : Bool) (user : Option User) (dbx : String → Bool)
    (norm : BatchPoints → Except String (List String))
    (ws : String → String → List String → Except String Nat)
    (bp : BatchPoints) (s : RespState) :
    (bp.database = "" →
      serveWrite ra user dbx norm ws bp s =
        ⟨writeError s { err := some (.plain "database is required"), rows := [] } 500, none⟩)
    ∧ (bp.database ≠ "" → dbx bp.database = false →
      serveWrite ra user dbx norm ws bp s =
        ⟨writeError s
          { err := some (.plain ("database not found: " ++ goQuote bp.database)), rows := [] }
          404, none⟩)
    ∧ (bp.database ≠ "" → dbx bp.database = true → ra = true → user = none →
      serveWrite ra user dbx norm ws bp s =
        ⟨writeError s
          { err := some (.plain ("user is required to write to database " ++ goQuote bp.database)),
            rows := [] } 401, none⟩)
    ∧ (∀ u, bp.database ≠ "" → dbx bp.database = true → ra = true → user = some u →
        u.authorizeWrite bp.database = false →
      serveWrite ra user dbx norm ws bp s =
        ⟨writeError s
          { err := some (.plain (goQuote u.name ++
              " user is not authorized to write to database " ++ goQuote bp.database)),
            rows := [] } 401, none⟩)
    ∧ (bp.database ≠ "" → dbx bp.database = true →
        (ra = true → ∃ u, user = some u ∧ u.authorizeWrite bp.database = true) →
        ∀ points, norm bp = Except.ok points →
          (serveWrite ra user dbx norm ws bp s).forwarded =
            some (bp.database, bp.retentionPolicy, points))
    ∧ (∀ f, (serveWrite ra user dbx norm ws bp s).forwarded = some f →
        bp.database ≠ "" ∧ dbx bp.database = true ∧
          (ra = true → ∃ u, user = some u ∧ u.authorizeWrite bp.database = true)) := by
  refine ⟨?_, ?_, ?_, ?_, ?_, ?_⟩
  · intro h
    simp [serveWrite, h]
  · intro h1 h2
    simp [serveWrite, h1, h2]
  · intro h1 h2 h3 h4
    subst h3; subst h4
    simp [serveWrite, h1, h2]
  · intro u h1 h2 h3 h4 h5
    subst h3; subst h4
    simp [serveWrite, h1, h2, userAuthorizeWrite, userNameOf, h5]
  · intro h1 h2 h3 points hnorm
    have hcond : (ra && user.isNone) = false ∧ (ra && !userAuthorizeWrite user bp.database) = false := by
      cases ra
      · simp
      · obtain ⟨u, hu, hauth⟩ := h3 rfl
        subst hu
        simp [userAuthorizeWrite, hauth]
    cases hws : ws bp.database bp.retentionPolicy points <;>
      simp [serveWrite, h1, h2, hcond.1, hcond.2, hnorm, hws]
  · intro f hf
    by_cases h1 : bp.database = ""
    · simp [serveWrite, h1] at hf
    · by_cases h2 : dbx bp.database = true
      · refine ⟨h1, h2, ?_⟩
        intro hra
        subst hra
        cases user with
        | none => simp [serveWrite, h1, h2] at hf
        | some u =>
          refine ⟨u, rfl, ?_⟩
          by_cases hauth : u.authorizeWrite bp.database = true
          · exact hauth
          · simp only [Bool.not_eq_true] at hauth
            simp [serveWrite, h1, h2, userAuthorizeWrite, hauth] at hf
      · simp only [Bool.not_eq_true] at h2
        simp [serveWrite, h1, h2] at hf

/-- Witness for C1: concrete evaluations of two branches of the cascade —
an empty database name gives the 500 "database is required" response with
no forwarding, and a fully valid batch is forwarded to `WriteSeries`. -/
theorem serveWrite_validation_witness :
    serveWrite true none (fun _ => true) (fun _ => Except.ok []) (fun _ _ _ => Except.ok 7)
        ⟨"", "rp", []⟩ initState =
      ⟨writeError initState { err := some (.plain "database is required"), rows := [] } 500, none⟩
    ∧ (serveWrite false none (fun _ => true) (fun b => Except.ok b.points)
        (fun _ _ _ => Except.ok 7) ⟨"db", "rp", ["p1"]⟩ initState).forwarded =
      some ("db", "rp", ["p1"]) :=
  ⟨(serveWrite_validation true none _ _ _ _ _).1 rfl,
    (serveWrite_validation false none (fun _ => true) (fun b => Except.ok b.points)
        (fun _ _ _ => Except.ok 7) ⟨"db", "rp", ["p1"]⟩ initState).2.2.2.2.1
      (by decide) rfl (by intro h; cases h) ["p1"] rfl⟩

/-- C5: when the `Results` envelope's aggregate error is non-nil,
`httpResults` picks 401 for an authorization error, 200 for the message
"measurement not found" or a message beginning with "field not found",
and 500 otherwise — and in every case the per-statement results are still
serialized into the response body. -/
theorem httpResults_status_selection (rs : Results) (pretty : Bool) (e : ErrVal)
    (h : Results.error rs = some e) :
    (isAuthorizationError e = true → (httpResults initState rs pretty).status = 401)
    ∧ (isAuthorizationError e = false → e.message = "measurement not found" →
        (httpResults initState rs pretty).status = 200)
    ∧ (isAuthorizationError e = false → hasPre "field not found" e.message = true →
        (httpResults initState rs pretty).status = 200)
    ∧ (isAuthorizationError e = false → e.message ≠ "measurement not found" →
        hasPre "field not found" e.message = false →
        (httpResults initState rs pretty).status = 500)
    ∧ (httpResults initState rs pretty).body = [BodyWrite.resultsJSON rs pretty] := by
  refine ⟨?_, ?_, ?_, ?_, ?_⟩
  · intro ha
    simp [httpResults, h, ha, writeBody, writeHeader, addHeader, initState]
  · intro ha hm
    simp [httpResults, h, ha, isMeasurementNotFoundError, hm, writeBody, writeHeader,
      addHeader, initState]
  · intro ha hf
    by_cases hm : isMeasurementNotFoundError e <;>
      simp [httpResults, h, ha, hm, isFieldNotFoundError, hf, writeBody, writeHeader,
        addHeader, initState]
  · intro ha hm hf
    simp [httpResults, h, ha, isMeasurementNotFoundError, hm, isFieldNotFoundError, hf,
      writeBody, writeHeader, addHeader, initState]
  · simp only [httpResults, h, writeBody_body, addHeader_body]
    split_ifs <;> simp [initState]

/-- Witness for C5: a plain "field not found: value" error yields status
200 and the envelope is still written; a plain other error yields 500. -/
theorem httpResults_status_selection_witness :
    (httpResults initState ⟨some (ErrVal.plain "field not found: value"), []⟩ false).status = 200
    ∧ (httpResults initState ⟨some (ErrVal.plain "boom"), []⟩ true).status = 500
    ∧ (httpResults initState ⟨some (ErrVal.plain "boom"), []⟩ true).body =
        [BodyWrite.resultsJSON ⟨some (ErrVal.plain "boom"), []⟩ true] :=
  ⟨(httpResults_status_selection ⟨some (ErrVal.plain "field not found: value"), []⟩ false
        (ErrVal.plain "field not found: value") (by decide)).2.2.1 (by decide) (by decide),

    (httpResults_status_selection ⟨some (ErrVal.plain "boom"), []⟩ true
        (ErrVal.plain "boom") (by decide)).2.2.2.1 (by decide) (by decide) (by decide),
    (httpResults_status_selection ⟨some (ErrVal.plain "boom"), []⟩ true
        (ErrVal.plain "boom") (by decide)).2.2.2.2⟩

/-- C10: `serveCreateDataNode` (body decoded, URL parsed) responds 409
with the backend's message when creation fails with the exists-sentinel,
500 on any other creation failure; a broker replica is provisioned only
after successful creation; and a replica failure yields 502 while the
created node is never deleted. -/
theorem serveCreateDataNode_spec (be : NodeBackend) (u : String) (s : RespState) :
    (∀ m, be.createDataNode u = some (CreateNodeErr.nodeExists m) →
      (serveCreateDataNode be u s).resp = httpError s m false 409
      ∧ (serveCreateDataNode be u s).calls = [NodeCall.createNode u])
    ∧ (∀ m, be.createDataNode u = some (CreateNodeErr.other m) →
      (serveCreateDataNode be u s).resp = httpError s m false 500
      ∧ (serveCreateDataNode be u s).calls = [NodeCall.createNode u])
    ∧ (∀ i url, NodeCall.createReplica i url ∈ (serveCreateDataNode be u s).calls →
        be.createDataNode u = none)
    ∧ (∀ m, be.createDataNode u = none →
        be.createReplica (be.dataNodeByURL u).id (be.dataNodeByURL u).url = some m →
        (serveCreateDataNode be u s).resp = httpError s m false 502
        ∧ NodeCall.createNode u ∈ (serveCreateDataNode be u s).calls
        ∧ ∀ i, NodeCall.deleteNode i ∉ (serveCreateDataNode be u s).calls) := by
  refine ⟨?_, ?_, ?_, ?_⟩
  · intro m hm
    simp [serveCreateDataNode, hm]
  · intro m hm
    simp [serveCreateDataNode, hm]
  · intro i url hmem
    cases hc : be.createDataNode u with
    | none => rfl
    | some e =>
      cases e <;> simp [serveCreateDataNode, hc] at hmem
  · intro m hc hr
    refine ⟨?_, ?_, ?_⟩
    · simp [serveCreateDataNode, hc, hr]
    · simp [serveCreateDataNode, hc, hr]
    · intro i
      simp [serveCreateDataNode, hc, hr]

/-- Witness for C10: a backend whose creation fails with the exists-
sentinel gives the 409 response carrying the backend's message, and a
backend whose replica provisioning fails gives 502 with the node created
and never deleted. -/
theorem serveCreateDataNode_spec_witness :
    (serveCreateDataNode
        ⟨fun _ => some (CreateNodeErr.nodeExists "data node exists"),
          fun _ => ⟨1, "http://n1"⟩, fun _ _ => none⟩ "http://n1" initState).resp =
      httpError initState "data node exists" false 409
    ∧ (serveCreateDataNode
        ⟨fun _ => none, fun _ => ⟨1, "http://n1"⟩, fun _ _ => some "replica failed"⟩
        "http://n1" initState).resp = httpError initState "replica failed" false 502
    ∧ NodeCall.createNode "http://n1" ∈
        (serveCreateDataNode
          ⟨fun _ => none, fun _ => ⟨1, "http://n1"⟩, fun _ _ => some "replica failed"⟩
          "http://n1" initState).calls :=
  ⟨((serveCreateDataNode_spec _ "http://n1" initState).1 "data node exists" rfl).1,
    ((serveCreateDataNode_spec
        ⟨fun _ => none, fun _ => ⟨1, "http://n1"⟩, fun _ _ => some "replica failed"⟩
        "http://n1" initState).2.2.2 "replica failed" rfl rfl).1,
    ((serveCreateDataNode_spec
        ⟨fun _ => none, fun _ => ⟨1, "http://n1"⟩, fun _ _ => some "replica failed"⟩
        "http://n1" initState).2.2.2 "replica failed" rfl rfl).2.1⟩

/-- The identity the permissive backend of the C3 analysis resolves: any
name, with every privilege granted. -/
def allowAllUser (n : String) : User :=
  { name := n, authorizeWrite := fun _ => true }

/-- A backend that resolves every credential pair to `allowAllUser`. -/
def acceptAnyBackend : String → String → Except String User :=
  fun n _ => Except.ok (allowAllUser n)

/-- A request carrying a basic-auth header with a non-empty username and
an empty password, and no `u`/`p` query parameters. -/
def emptyPasswordReq : Req :=
  { method := "GET", origin := "", acceptEncoding := "", paramU := "", paramP := "",
    basicAuth := some ("alice", "") }

/-- Counterexample to C3 as stated: on a request whose extraction yields
the non-empty username "alice" but an empty password (so extraction fails
to yield both a non-empty username and password), the gate does not
respond 401 — it forwards the pair to the backend, and with a backend
that resolves it the endpoint body runs with the resolved identity. -/
theorem authenticate_empty_password_cex :
    parseCredentials emptyPasswordReq = Except.ok ("alice", "")
    ∧ authenticate true 1 acceptAnyBackend emptyPasswordReq
        = AuthResult.proceed (some (allowAllUser "alice")) := by
  constructor <;> rfl

/-- C3 (amended): with authentication required and at least one
registered user, credentials come from the `u`/`p` query parameters when
both are non-empty and otherwise from the basic-auth header; if
extraction fails outright, or yields an empty username, or the backend
fails to resolve the pair, the gate responds 401 with a JSON error body
and the endpoint body is never invoked; the endpoint runs exactly when
extraction yields a non-empty username and the backend resolves the pair
(an empty password is not rejected by the gate itself). -/
theorem authenticate_guard (userCount : Nat)
    (sa : String → String → Except String User) (r : Req) (huc : 0 < userCount) :
    (r.paramU ≠ "" ∧ r.paramP ≠ "" → parseCredentials r = Except.ok (r.paramU, r.paramP))
    ∧ (¬(r.paramU ≠ "" ∧ r.paramP ≠ "") → ∀ u p, r.basicAuth = some (u, p) →
        parseCredentials r = Except.ok (u, p))
    ∧ (∀ e, parseCredentials r = Except.error e →
        authenticate true userCount sa r = AuthResult.denied 401 e)
    ∧ (∀ p, parseCredentials r = Except.ok ("", p) →
        authenticate true userCount sa r = AuthResult.denied 401 "username required")
    ∧ (∀ u p e, parseCredentials r = Except.ok (u, p) → u ≠ "" → sa u p = Except.error e →
        authenticate true userCount sa r = AuthResult.denied 401 e)
    ∧ (∀ ou, authenticate true userCount sa r = AuthResult.proceed ou →
        ∃ u p usr, parseCredentials r = Except.ok (u, p) ∧ u ≠ "" ∧
          sa u p = Except.ok usr ∧ ou = some usr)
    ∧ (∀ code msg (v uid : String) (inner : Req → RespState → Outcome) (s : RespState),
        authenticate true userCount sa r = AuthResult.denied code msg →
        runMw ⟨v, uid, true, userCount, sa⟩ Mw.authGate inner r s =
          Outcome.done (httpError s msg false code)) := by
  refine ⟨?_, ?_, ?_, ?_, ?_, ?_, ?_⟩
  · intro hq
    simp [parseCredentials, hq]
  · intro hq u p hb
    simp [parseCredentials, hq, hb]
  · intro e he
    simp [authenticate, huc, he]
  · intro p hp
    simp [authenticate, huc, hp]
  · intro u p e hok hu hsa
    simp [authenticate, huc, hok, hu, hsa]
  · intro ou hpr
    simp only [authenticate, Bool.not_true, Bool.false_eq_true, if_false, huc, if_pos] at hpr
    rcases hpc : parseCredentials r with e | up
    · simp [hpc] at hpr
    · obtain ⟨u, p⟩ := up
      simp only [hpc] at hpr
      by_cases hu : u = ""
      · simp [hu] at hpr
      · simp only [hu, if_neg, if_false] at hpr
        rcases hsa : sa u p with e | usr
        · simp [hsa, hu] at hpr
        · simp only [hsa, hu, ite_false] at hpr
          refine ⟨u, p, usr, ?_, hu, hsa, ?_⟩
          · rfl
          · cases hpr
            rfl
  · intro code msg v uid inner s hden
    simp [runMw, hden]

/-- Witness for C3 (amended): on a request with no credentials at all
the gate answers 401 with the parse-failure message, and at the chain
level the auth layer writes that `httpError` without invoking the
endpoint. -/
theorem authenticate_guard_witness :
    authenticate true 1 acceptAnyBackend
        { method := "GET", origin := "", acceptEncoding := "", paramU := "", paramP := "",
          basicAuth := none }
      = AuthResult.denied 401 "unable to parse Basic Auth credentials"
    ∧ runMw ⟨"0.1", "uid", true, 1, acceptAnyBackend⟩ Mw.authGate
        (fun _ s => Outcome.panicked s "endpoint ran")
        { method := "GET", origin := "", acceptEncoding := "", paramU := "", paramP := "",
          basicAuth := none } initState
      = Outcome.done (httpError initState "unable to parse Basic Auth credentials" false 401) :=
  ⟨(authenticate_guard 1 acceptAnyBackend
        { method := "GET", origin := "", acceptEncoding := "", paramU := "", paramP := "",
          basicAuth := none } (by decide)).2.2.1 _ rfl,
    (authenticate_guard 1 acceptAnyBackend
        { method := "GET", origin := "", acceptEncoding := "", paramU := "", paramP := "",
          basicAuth := none } (by decide)).2.2.2.2.2.2 401
      "unable to parse Basic Auth credentials" "0.1" "uid" _ initState
      ((authenticate_guard 1 acceptAnyBackend
        { method := "GET", origin := "", acceptEncoding := "", paramU := "", paramP := "",
          basicAuth := none } (by decide)).2.2.1 _ rfl)⟩

/-- The poll scan misses iff the index is below the target at every check
the fuel covers. -/
theorem findSat_none (indexAt : Nat → Nat) (target : Nat) :
    ∀ fuel start, (findSat indexAt target fuel start = none ↔
      ∀ k, start ≤ k → k < start + fuel → indexAt k < target) := by
  intro fuel
  induction fuel with
  | zero =>
    intro start
    simp only [findSat]
    constructor
    · intro _ k h1 h2
      omega
    · intro _
      trivial
  | succ n ih =>
    intro start
    simp only [findSat]
    by_cases h : target ≤ indexAt start
    · rw [if_pos h]
      constructor
      · intro hco
        simp at hco
      · intro hall
        have := hall start (Nat.le_refl _) (by omega)
        omega
    · rw [if_neg h]
      rw [ih (start + 1)]
      constructor
      · intro hp k h1 h2
        by_cases hk : k = start
        · subst hk
          omega
        · exact hp k (by omega) (by omega)
      · intro hp k h1 h2
        exact hp k (by omega) (by omega)

/-- The poll scan returns the first check at which the index has reached
the target, provided that check is within the fuel. -/
theorem findSat_some (indexAt : Nat → Nat) (target : Nat) :
    ∀ fuel start k, start ≤ k → k < start + fuel → target ≤ indexAt k →
      (∀ j, start ≤ j → j < k → indexAt j < target) →
      findSat indexAt target fuel start = some k := by
  intro fuel
  induction fuel with
  | zero =>
    intro start k h1 h2 _ _
    omega
  | succ n ih =>
    intro start k h1 h2 hsat hmin
    simp only [findSat]
    by_cases h : target ≤ indexAt start
    · have hsk : start = k := by
        by_contra hne
        have := hmin start (Nat.le_refl _) (by omega)
        omega
      rw [if_pos h, hsk]
    · rw [if_neg h]
      have hne : start ≠ k := by
        intro he
        rw [he] at h
        exact h hsat
      exact ih (start + 1) k (by omega) (by omega) hsat
        (fun j hj1 hj2 => hmin j (by omega) hj2)

/-- A check index is within the fuel iff its time is strictly before the
deadline. -/
theorem lt_numTicks_iff (dNs k : Nat) : k < numTicks dNs ↔ k * pollTickNs < dNs := by
  unfold numTicks pollTickNs
  omega

/-- C4: for a positive target index, `serveWait` polls the backend's
index at the fixed 10ms interval; a timeout of 0 (or absent) stands for
the effectively unbounded `math.MaxInt64` deadline; if some check before
the deadline sees the index at or above the target, the first such check
wins and the response is 200 with the backend's current index as the
body; if every check before the deadline sees the index below the
target, the response is 408 with an empty body. -/
theorem serveWait_spec (indexAt : Nat → Nat) (index timeout : Nat) (hpos : 0 < index) :
    waitDeadlineNs 0 = maxInt64
    ∧ ((∀ k, k * pollTickNs < waitDeadlineNs timeout → indexAt k < index) →
        (serveWait indexAt index timeout initState).status = 408
        ∧ (serveWait indexAt index timeout initState).body = [])
    ∧ (∀ k, k * pollTickNs < waitDeadlineNs timeout → index ≤ indexAt k →
        (∀ j, j < k → indexAt j < index) →
        (serveWait indexAt index timeout initState).status = 200
        ∧ (serveWait indexAt index timeout initState).body =
            [BodyWrite.raw (toString (indexAt k))]) := by
  refine ⟨rfl, ?_, ?_⟩
  · intro hall
    have hpoll : pollForIndex indexAt index (waitDeadlineNs timeout) = none := by
      unfold pollForIndex
      apply (findSat_none indexAt index (numTicks (waitDeadlineNs timeout)) 0).mpr
      intro k _ hk2
      exact hall k ((lt_numTicks_iff _ _).mp (by omega))
    have hne : ¬ index = 0 := by omega
    constructor <;> simp [serveWait, hne, hpoll, writeHeader, initState]
  · intro k hk hsat hmin
    have hpoll : pollForIndex indexAt index (waitDeadlineNs timeout) = some k := by
      unfold pollForIndex
      exact findSat_some indexAt index (numTicks (waitDeadlineNs timeout)) 0 k
        (Nat.zero_le k) (by have := (lt_numTicks_iff (waitDeadlineNs timeout) k).mpr hk; omega)
        hsat (fun j _ hj2 => hmin j hj2)
    have hne : ¬ index = 0 := by omega
    constructor <;> simp [serveWait, hne, hpoll, writeBody, writeHeader, initState]

/-- Witness for C4: with the backend index stuck at the check number and
a 1ms timeout (one check, at time 0), waiting for index 2 times out with
408 and an empty body; with the backend index at 5 and a 30ms timeout,
waiting for index 1 succeeds at the first check with 200 and body "5". -/
theorem serveWait_spec_witness :
    ((serveWait (fun k => k) 2 1 initState).status = 408
      ∧ (serveWait (fun k => k) 2 1 initState).body = [])
    ∧ ((serveWait (fun _ => 5) 1 30 initState).status = 200
      ∧ (serveWait (fun _ => 5) 1 30 initState).body = [BodyWrite.raw (toString 5)]) :=
  ⟨(serveWait_spec (fun k => k) 2 1 (by decide)).2.1
      (by
        intro k hk
        simp [pollTickNs, waitDeadlineNs, maxInt64] at hk
        show k < 2
        omega),
    (serveWait_spec (fun _ => 5) 1 30 (by decide)).2.2 0 (by decide) (by decide)
      (by
        intro j hj
        omega)⟩

/-- A plain GET request: no origin, no gzip negotiation, no credentials. -/
def plainGetReq : Req :=
  { method := "GET", origin := "", acceptEncoding := "", paramU := "", paramP := "",
    basicAuth := none }

/-- An OPTIONS request to a registered route, carrying an `Origin`. -/
def optionsReq : Req :=
  { method := "OPTIONS", origin := "http://example.com", acceptEncoding := "", paramU := "",
    paramP := "", basicAuth := none }

/-- An environment for concrete chain evaluations: version "0.1",
request id "uid-1", authentication not required. -/
def sampleEnv : ChainEnv :=
  { version := "0.1", uid := "uid-1", requireAuthentication := false, userCount := 0,
    serverAuthenticate := fun _ _ => Except.error "auth" }

/-- C7, evaluated at a failing input: `recovery` (handler.go:630-641)
calls `recover()` in the handler body rather than from a deferred
function, so a panic raised by the endpoint unwinds past every layer of
the composed chain — here a panicking endpoint on a logged, gzipped
route makes the whole chain's outcome a panic, unlogged, instead of
being caught. -/
theorem recovery_panic_escapes :
    runChain sampleEnv (wrapRoute true true false)
        (runEndpoint { actions := [], panicVal := some "boom" }) plainGetReq initState
      = Outcome.panicked
          { wroteHeader := false, status := 200,
            headers := [("Request-Id", "uid-1"), ("X-InfluxDB-Version", "0.1")], body := [] }
          "boom" := by
  rfl

/-- C8, evaluated at the failing input: an OPTIONS request terminates at
the CORS middleware without reaching the endpoint (the outcome is the
same for every endpoint body), but the response is the net/http default
status 200 with nothing written — not 204 — because `cors` returns
without writing a status and the registered `serveOptions` endpoint,
which does write 204, is unreachable behind it. -/
theorem cors_options_responds_200_not_204 :
    (∀ e1 e2 : Req → RespState → Outcome,
      runChain sampleEnv (wrapRoute true true false) e1 optionsReq initState
        = runChain sampleEnv (wrapRoute true true false) e2 optionsReq initState)
    ∧ runChain sampleEnv (wrapRoute true true false)
        (runEndpoint { actions := [], panicVal := none }) optionsReq initState
      = Outcome.done
          { wroteHeader := false, status := 200,
            headers := [("Access-Control-Allow-Headers", corsAllowHeaders),
              ("Access-Control-Allow-Methods", corsAllowMethods),
              ("Access-Control-Allow-Origin", "http://example.com"),
              ("Request-Id", "uid-1")], body := [] }
    ∧ (serveOptions initState).status = 204 :=
  ⟨fun _ _ => rfl, rfl, rfl⟩

/-- Counterexample to C9 as stated: the response to an OPTIONS request
(here `OPTIONS /write` with an `Origin` header) carries no
`X-InfluxDB-Version` header at all, because `cors` terminates OPTIONS
requests outside the `versionHeader` middleware. -/
theorem version_header_missing_on_options_cex :
    ((outState (runChain sampleEnv (wrapRoute true true false)
        (runEndpoint { actions := [], panicVal := none }) optionsReq initState)).headers.filter
          (fun kv => kv.1 == "X-InfluxDB-Version")) = [] := by
  rfl

/-- The header key `k` occurs in the response state. -/
def keyPresent (k : String) (s : RespState) : Prop :=
  ∃ v, (k, v) ∈ s.headers

/-- `Header().Set` never removes a key other than the one it writes, and
it writes that one. -/
theorem keyPresent_setHeader (key : String) (s : RespState) (k v : String)
    (h : keyPresent key s) : keyPresent key (setHeader s k v) := by
  by_cases hk : k = key
  · subst hk
    exact ⟨v, List.mem_cons_self _ _⟩
  · obtain ⟨w, hw⟩ := h
    refine ⟨w, List.mem_cons_of_mem _ (List.mem_filter.mpr ⟨hw, ?_⟩)⟩
    simp
    intro he
    exact hk (he ▸ rfl)

/-- `Header().Add` preserves every present key. -/
theorem keyPresent_addHeader (key : String) (s : RespState) (k v : String)
    (h : keyPresent key s) : keyPresent key (addHeader s k v) := by
  obtain ⟨w, hw⟩ := h
  exact ⟨w, List.mem_append_left _ hw⟩

/-- `WriteHeader` preserves every present key. -/
theorem keyPresent_writeHeader (key : String) (s : RespState) (c : Nat)
    (h : keyPresent key s) : keyPresent key (writeHeader s c) := by
  obtain ⟨w, hw⟩ := h
  exact ⟨w, by rw [writeHeader_headers]; exact hw⟩

/-- `Write` preserves every present key. -/
theorem keyPresent_writeBody (key : String) (s : RespState) (b : BodyWrite)
    (h : keyPresent key s) : keyPresent key (writeBody s b) := by
  obtain ⟨w, hw⟩ := h
  exact ⟨w, by rw [writeBody_headers]; exact hw⟩

/-- Every primitive endpoint act preserves every present key (no act
deletes a header). -/
theorem keyPresent_applyAction (key : String) (s : RespState) (act : HAction)
    (h : keyPresent key s) : keyPresent key (applyAction s act) := by
  cases act with
  | setH k v => exact keyPresent_setHeader key s k v h
  | addH k v => exact keyPresent_addHeader key s k v h
  | writeH c => exact keyPresent_writeHeader key s c h
  | writeB b => exact keyPresent_writeBody key s b h

/-- A sequence of endpoint acts preserves every present key. -/
theorem keyPresent_applyActions (key : String) :
    ∀ (acts : List HAction) (s : RespState), keyPresent key s →
      keyPresent key (applyActions s acts) := by
  intro acts
  induction acts with
  | nil => intro s h; exact h
  | cons act rest ih =>
    intro s h
    exact ih (applyAction s act) (keyPresent_applyAction key s act h)

/-- `httpError` preserves every present key. -/
theorem keyPresent_httpError (key : String) (s : RespState) (msg : String) (pretty : Bool)
    (code : Nat) (h : keyPresent key s) : keyPresent key (httpError s msg pretty code) :=
  keyPresent_writeBody key _ _ (keyPresent_writeHeader key _ _ (keyPresent_addHeader key s _ _ h))

/-- The CORS reflection headers preserve every present key. -/
theorem keyPresent_corsHeaders (key : String) (r : Req) (s : RespState)
    (h : keyPresent key s) : keyPresent key (corsHeaders r s) := by
  unfold corsHeaders
  split
  · exact keyPresent_setHeader key _ _ _
      (keyPresent_setHeader key _ _ _ (keyPresent_setHeader key s _ _ h))
  · exact h

/-- A handler preserves the presence of header key `k` on every request
and writer state. -/
def preservesKey (k : String) (f : Req → RespState → Outcome) : Prop :=
  ∀ r s, keyPresent k s → keyPresent k (outState (f r s))

/-- An abstracted endpoint body preserves every present key. -/
theorem runEndpoint_preservesKey (key : String) (b : EndpointBeh) :
    preservesKey key (runEndpoint b) := by
  intro r s h
  unfold runEndpoint outState
  cases b.panicVal <;> exact keyPresent_applyActions key b.actions s h

/-- Every middleware layer preserves present header keys, provided the
handler it wraps does. -/
theorem runMw_preservesKey (key : String) (env : ChainEnv) (m : Mw)
    (inner : Req → RespState → Outcome) (hin : preservesKey key inner) :
    preservesKey key (runMw env m inner) := by
  intro r s h
  cases m with
  | recovery =>
    show keyPresent key (outState (match inner r s with
      | .done s' => Outcome.done s'
      | .panicked s' v => Outcome.panicked s' v))
    have := hin r s h
    cases hi : inner r s with
    | done s' => rw [hi] at this; exact this
    | panicked s' v => rw [hi] at this; exact this
  | logging => exact hin r s h
  | requestID => exact hin r _ (keyPresent_setHeader key s _ _ h)
  | cors =>
    show keyPresent key (outState (if r.method = "OPTIONS" then Outcome.done (corsHeaders r s)
      else inner r (corsHeaders r s)))
    split
    · exact keyPresent_corsHeaders key r s h
    · exact hin r _ (keyPresent_corsHeaders key r s h)
  | versionHeader => exact hin r _ (keyPresent_addHeader key s _ _ h)
  | gzip =>
    show keyPresent key (outState (if containsGzip r.acceptEncoding then
      inner r (setHeader s "Content-Encoding" "gzip") else inner r s))
    split
    · exact hin r _ (keyPresent_setHeader key s _ _ h)
    · exact hin r s h
  | authGate =>
    show keyPresent key (outState (match authenticate env.requireAuthentication env.userCount
        env.serverAuthenticate r with
      | .denied code msg => Outcome.done (httpError s msg false code)
      | .proceed _ => inner r s))
    cases authenticate env.requireAuthentication env.userCount env.serverAuthenticate r with
    | denied code msg => exact keyPresent_httpError key s msg false code h
    | proceed u => exact hin r s h

/-- A stack of middleware layers preserves present header keys, provided
the innermost handler does. -/
theorem runChain_preservesKey (key : String) (env : ChainEnv) :
    ∀ (ms : List Mw) (inner : Req → RespState → Outcome), preservesKey key inner →
      preservesKey key (runChain env ms inner) := by
  intro ms
  induction ms with
  | nil => intro inner h; exact h
  | cons m rest ih =>
    intro inner h
    exact runMw_preservesKey key env m _ (ih inner h)

/-- Running a concatenated middleware stack is running the first part
around the second. -/
theorem runChain_append (env : ChainEnv) :
    ∀ (xs ys : List Mw) (inner : Req → RespState → Outcome),
      runChain env (xs ++ ys) inner = runChain env xs (runChain env ys inner) := by
  intro xs
  induction xs with
  | nil => intro ys inner; rfl
  | cons m rest ih =>
    intro ys inner
    show runMw env m (runChain env (rest ++ ys) inner) = _
    rw [ih ys inner]
    rfl

/-- The outer layers `recovery`, `logging`, `requestID` and `cors` (off
the OPTIONS path) yield a key-present outcome whenever the handler they
wrap does so from every writer state. -/
theorem ensures_lift (key : String) (env : ChainEnv) (r : Req) (hm : r.method ≠ "OPTIONS")
    (m : Mw)
    (hpre : m = Mw.recovery ∨ m = Mw.logging ∨ m = Mw.requestID ∨ m = Mw.cors)
    (inner : Req → RespState → Outcome)
    (hin : ∀ s, keyPresent key (outState (inner r s))) :
    ∀ s, keyPresent key (outState (runMw env m inner r s)) := by
  intro s
  rcases hpre with rfl | rfl | rfl | rfl
  · show keyPresent key (outState (match inner r s with
      | .done s' => Outcome.done s'
      | .panicked s' v => Outcome.panicked s' v))
    have := hin s
    cases hi : inner r s with
    | done s' => rw [hi] at this; exact this
    | panicked s' v => rw [hi] at this; exact this
  · exact hin _
  · exact hin _
  · show keyPresent key (outState (if r.method = "OPTIONS" then Outcome.done (corsHeaders r s)
      else inner r (corsHeaders r s)))
    rw [if_neg hm]
    exact hin _

/-- A stack made only of the outer layers yields a key-present outcome
whenever the handler it wraps does so from every writer state. -/
theorem ensures_chain_pre (key : String) (env : ChainEnv) (r : Req)
    (hm : r.method ≠ "OPTIONS") :
    ∀ (pre : List Mw),
      (∀ m ∈ pre, m = Mw.recovery ∨ m = Mw.logging ∨ m = Mw.requestID ∨ m = Mw.cors) →
      ∀ (inner : Req → RespState → Outcome),
        (∀ s, keyPresent key (outState (inner r s))) →
        ∀ s, keyPresent key (outState (runChain env pre inner r s)) := by
  intro pre
  induction pre with
  | nil => intro _ inner h s; exact h s
  | cons m rest ih =>
    intro hmem inner hinner s
    exact ensures_lift key env r hm m (hmem m (List.mem_cons_self _ _)) _
      (ih (fun m' hm' => hmem m' (List.mem_cons_of_mem _ hm')) inner hinner) s

/-- C9 (amended): every response to a non-OPTIONS request on a
registered route — whatever the route's gzip/log/auth flags, the
environment, and the endpoint body's writes or panic — carries the
`X-InfluxDB-Version` header; OPTIONS requests terminate at the CORS
middleware before the version-header layer and do not carry it. -/
theorem version_header_on_non_options (env : ChainEnv) (g l a : Bool) (b : EndpointBeh)
    (r : Req) (hm : r.method ≠ "OPTIONS") :
    keyPresent "X-InfluxDB-Version"
      (outState (runChain env (wrapRoute g l a) (runEndpoint b) r initState)) := by
  have hwrap : wrapRoute g l a =
      ([Mw.recovery] ++ (if l then [Mw.logging] else []) ++ [Mw.requestID, Mw.cors])
        ++ (Mw.versionHeader ::
          ((if g then [Mw.gzip] else []) ++ (if a then [Mw.authGate] else []))) := by
    cases g <;> cases l <;> cases a <;> rfl
  rw [hwrap, runChain_append]
  apply ensures_chain_pre "X-InfluxDB-Version" env r hm
  · intro m hmem
    cases l <;> simp at hmem <;> tauto
  · intro s
    show keyPresent "X-InfluxDB-Version" (outState (runChain env
      ((if g then [Mw.gzip] else []) ++ (if a then [Mw.authGate] else [])) (runEndpoint b) r
      (addHeader s "X-InfluxDB-Version" env.version)))
    apply runChain_preservesKey "X-InfluxDB-Version" env _ _
      (runEndpoint_preservesKey "X-InfluxDB-Version" b)
    exact ⟨env.version, List.mem_append_right _ (List.mem_singleton.mpr rfl)⟩

/-- Witness for C9 (amended): a plain GET through the full write-route
chain ends with the `X-InfluxDB-Version` header present. -/
theorem version_header_on_non_options_witness :
    keyPresent "X-InfluxDB-Version"
      (outState (runChain sampleEnv (wrapRoute true true false)
        (runEndpoint { actions := [], panicVal := none }) plainGetReq initState)) :=
  version_header_on_non_options sampleEnv true true false { actions := [], panicVal := none }
    plainGetReq (by decide)

end Httpd
